import Mathlib

/-!
# Verification of the chat-membership decoding layer

Shallow embedding of `src/raw/src/types/chat_member.rs`: the permissive
`ChatMemberStatus` enumeration decoder (a serde string visitor) and the three
derived record decoders (`ChatMember`, `ChatInviteLink`, `ChatMemberUpdated`).

Wire records are modelled as the spec's input boundary describes them: a
string-keyed map whose values are strings, booleans, integers, or nested such
maps. Record decoding follows the sparse-record contract the source's derived
deserializers implement: required fields must be present, optional fields
decode to `none` when absent, unknown keys are ignored, and nested failures
are propagated tagged with the containing field name.
-/

namespace Raw

/-- The source's `Integer` alias (a 64-bit integer on the wire, modelled as `Int`). -/
abbrev Integer := Int

/-- Modelled from the spec: the input boundary of §6 (the wire parsing layer
is an external collaborator, not in `src/`) — a raw record value is a string,
an integer, a boolean, or a named-field map of such values. -/
inductive Json where
  | str (s : String)
  | int (n : Integer)
  | bool (b : Bool)
  | obj (fields : List (String × Json))

/-- Modelled from the spec: the error taxonomy of §7 (the concrete serde error
type is external to `src/`) — a missing required field or a value of the
wrong shape, each carrying the field path from the record root. -/
inductive DecodeError where
  | missingField (path : List String)
  | typeMismatch (path : List String) (expected : String)
deriving DecidableEq, Repr

/-- Modelled from the spec: §4.2 path prefixing — tag an error with the
containing field name before propagating it. -/
def DecodeError.prefixWith (name : String) : DecodeError → DecodeError
  | .missingField p => .missingField (name :: p)
  | .typeMismatch p e => .typeMismatch (name :: p) e

/-- Modelled from the spec: the dotted rendering of an error path of §7,
e.g. `old_chat_member.user.id`. -/
def DecodeError.pathString : DecodeError → String
  | .missingField p => String.intercalate "." p
  | .typeMismatch p _ => String.intercalate "." p

/-- The member's status in the chat (`ChatMemberStatus` in the source), with
the hidden catch-all variant `Unknown` carrying the raw literal. -/
inductive ChatMemberStatus where
  | Creator
  | Administrator
  | Member
  | Left
  | Kicked
  | Unknown (s : String)
deriving DecidableEq, Repr

namespace ChatMemberStatus

/-- The body of `ChatMemberStatusVisitor::visit_str`: a case-sensitive match
on the exact literal, falling through to `Unknown(value.to_string())`. -/
def visitStr (value : String) : ChatMemberStatus :=
  if value = "creator" then Creator
  else if value = "administrator" then Administrator
  else if value = "member" then Member
  else if value = "left" then Left
  else if value = "kicked" then Kicked
  else Unknown value

/-- Modelled from the spec: the variant tag compared first by the structural
equality/ordering/hashing of §3 (the derived `PartialOrd`/`Ord`/`Hash`
impls), in declaration order. -/
def tag : ChatMemberStatus → Nat
  | Creator => 0
  | Administrator => 1
  | Member => 2
  | Left => 3
  | Kicked => 4
  | Unknown _ => 5

/-- Modelled from the spec: the payload compared after the tag — the carried
string for `Unknown`, empty for the unit variants (which carry no fields). -/
def payload : ChatMemberStatus → String
  | Unknown s => s
  | _ => ""

/-- Modelled from the spec: the derived `Ord` on `ChatMemberStatus` —
discriminants in declaration order first, then the carried string for two
`Unknown` values. -/
def cmp (a b : ChatMemberStatus) : Ordering :=
  match a, b with
  | Unknown s, Unknown t => compare s t
  | a, b => compare a.tag b.tag

/-- Modelled from the spec: the derived `Hash`, structurally — fold the
discriminant and the payload characters into an accumulator (the concrete
mixer is irrelevant; only its structural dependence on tag and payload
matters). -/
def hashVal (s : ChatMemberStatus) : Nat :=
  (s.tag :: (s.payload.toList.map Char.toNat)).foldl (fun h n => h * 1000003 + n) 0

/-- The wire literal a status value stands for: the known literal for a named
variant, the carried string for the catch-all (left inverse of `visitStr`). -/
def raw : ChatMemberStatus → String
  | Creator => "creator"
  | Administrator => "administrator"
  | Member => "member"
  | Left => "left"
  | Kicked => "kicked"
  | Unknown s => s

end ChatMemberStatus

/-! ## Element codecs -/

/-- Deserializing `ChatMemberStatus`: `deserialize_str` hands the raw string
to the visitor; a non-string shape is a type mismatch (the visitor's
`expecting` message gives the expected shape). -/
def decodeChatMemberStatus : Json → Except DecodeError ChatMemberStatus
  | .str value => .ok (ChatMemberStatus.visitStr value)
  | _ => .error (.typeMismatch [] "creator | administrator | member | left | kicked")

/-- Modelled from the spec: the primitive integer element codec of §4.2
(the source's `Integer` fields). -/
def decodeInt : Json → Except DecodeError Integer
  | .int n => .ok n
  | _ => .error (.typeMismatch [] "an integer")

/-- Modelled from the spec: the primitive boolean element codec of §4.2. -/
def decodeBool : Json → Except DecodeError Bool
  | .bool b => .ok b
  | _ => .error (.typeMismatch [] "a boolean")

/-- Modelled from the spec: the primitive string element codec of §4.2. -/
def decodeString : Json → Except DecodeError String
  | .str s => .ok s
  | _ => .error (.typeMismatch [] "a string")

/-- Modelled from the spec: the required-field policy of the sparse-record
contract (§4.2), which the source's derived deserializers implement: absent
is a `MissingField` naming the field; present decodes through the element
codec, with failures tagged with the field name. -/
def reqField (fields : List (String × Json)) (name : String)
    (dec : Json → Except DecodeError α) : Except DecodeError α :=
  match fields.lookup name with
  | none => .error (.missingField [name])
  | some v => (dec v).mapError (DecodeError.prefixWith name)

/-- Modelled from the spec: the optional-field policy of §4.2: absent decodes
to `none` (not an error, not a default); present decodes through the element
codec, tagged likewise. -/
def optField (fields : List (String × Json)) (name : String)
    (dec : Json → Except DecodeError α) : Except DecodeError (Option α) :=
  match fields.lookup name with
  | none => .ok none
  | some v => ((dec v).mapError (DecodeError.prefixWith name)).map some

/-! ## External collaborator entities -/

/-- Modelled from the spec: the `User` entity lives in the external
user-model module (`crate::types`), not in this snippet. Per §6 it has its
own decode contract of the same sparse-record kind, and §4.2's path example
`old_chat_member.user.id` names its required integer field `id`; we model
exactly that shape. -/
structure User where
  id : Integer
deriving DecidableEq, Repr

/-- Modelled from the spec: decoding the external `User` collaborator by the
sparse-record contract of §4.2, with its required `id` field. -/
def decodeUser : Json → Except DecodeError User
  | .obj fields => do
      let id ← reqField fields "id" decodeInt
      pure { id := id }
  | _ => .error (.typeMismatch [] "a User object")

/-- Modelled from the spec: the `Chat` entity is likewise an external
collaborator (§6); we model it with a required integer `id` field. -/
structure Chat where
  id : Integer
deriving DecidableEq, Repr

/-- Modelled from the spec: decoding the external `Chat` collaborator. -/
def decodeChat : Json → Except DecodeError Chat
  | .obj fields => do
      let id ← reqField fields "id" decodeInt
      pure { id := id }
  | _ => .error (.typeMismatch [] "a Chat object")

/-! ## The three domain entities -/

/-- Information about one member of the chat (`ChatMember` in the source):
two required fields and fourteen independent optional attributes. -/
structure ChatMember where
  user : User
  status : ChatMemberStatus
  until_date : Option Integer
  can_be_edited : Option Bool
  can_change_info : Option Bool
  can_post_messages : Option Bool
  can_edit_messages : Option Bool
  can_delete_messages : Option Bool
  can_invite_users : Option Bool
  can_restrict_members : Option Bool
  can_pin_messages : Option Bool
  can_promote_members : Option Bool
  can_send_messages : Option Bool
  can_send_media_messages : Option Bool
  can_send_other_messages : Option Bool
  can_add_web_page_previews : Option Bool
deriving DecidableEq, Repr

/-- The optional boolean fields of `ChatMember`, in declaration order. -/
def chatMemberOptionalBoolFields : List String :=
  ["can_be_edited", "can_change_info", "can_post_messages", "can_edit_messages",
   "can_delete_messages", "can_invite_users", "can_restrict_members",
   "can_pin_messages", "can_promote_members", "can_send_messages",
   "can_send_media_messages", "can_send_other_messages",
   "can_add_web_page_previews"]

/-- All optional fields of `ChatMember` (the timestamp plus the booleans). -/
def chatMemberOptionalFields : List String :=
  "until_date" :: chatMemberOptionalBoolFields

/-- Every schema field name of `ChatMember`. -/
def chatMemberFieldNames : List String :=
  "user" :: "status" :: chatMemberOptionalFields

/-- The derived deserializer for `ChatMember`: required `user` and `status`,
fourteen optional fields, unknown keys ignored (no deny-unknown-fields). -/
def decodeChatMember : Json → Except DecodeError ChatMember
  | .obj fields => do
      let user ← reqField fields "user" decodeUser
      let status ← reqField fields "status" decodeChatMemberStatus
      let until_date ← optField fields "until_date" decodeInt
      let can_be_edited ← optField fields "can_be_edited" decodeBool
      let can_change_info ← optField fields "can_change_info" decodeBool
      let can_post_messages ← optField fields "can_post_messages" decodeBool
      let can_edit_messages ← optField fields "can_edit_messages" decodeBool
      let can_delete_messages ← optField fields "can_delete_messages" decodeBool
      let can_invite_users ← optField fields "can_invite_users" decodeBool
      let can_restrict_members ← optField fields "can_restrict_members" decodeBool
      let can_pin_messages ← optField fields "can_pin_messages" decodeBool
      let can_promote_members ← optField fields "can_promote_members" decodeBool
      let can_send_messages ← optField fields "can_send_messages" decodeBool
      let can_send_media_messages ← optField fields "can_send_media_messages" decodeBool
      let can_send_other_messages ← optField fields "can_send_other_messages" decodeBool
      let can_add_web_page_previews ← optField fields "can_add_web_page_previews" decodeBool
      pure { user := user, status := status, until_date := until_date,
             can_be_edited := can_be_edited, can_change_info := can_change_info,
             can_post_messages := can_post_messages,
             can_edit_messages := can_edit_messages,
             can_delete_messages := can_delete_messages,
             can_invite_users := can_invite_users,
             can_restrict_members := can_restrict_members,
             can_pin_messages := can_pin_messages,
             can_promote_members := can_promote_members,
             can_send_messages := can_send_messages,
             can_send_media_messages := can_send_media_messages,
             can_send_other_messages := can_send_other_messages,
             can_add_web_page_previews := can_add_web_page_previews }
  | _ => .error (.typeMismatch [] "a ChatMember object")

/-- An invite link (`ChatInviteLink` in the source): four required fields and
two optional ones. -/
structure ChatInviteLink where
  invite_link : String
  creator : User
  is_primary : Bool
  is_revoked : Bool
  expire_date : Option Integer
  member_limit : Option Integer
deriving DecidableEq, Repr

/-- Every schema field name of `ChatInviteLink`. -/
def chatInviteLinkFieldNames : List String :=
  ["invite_link", "creator", "is_primary", "is_revoked", "expire_date", "member_limit"]

/-- The derived deserializer for `ChatInviteLink`. -/
def decodeChatInviteLink : Json → Except DecodeError ChatInviteLink
  | .obj fields => do
      let invite_link ← reqField fields "invite_link" decodeString
      let creator ← reqField fields "creator" decodeUser
      let is_primary ← reqField fields "is_primary" decodeBool
      let is_revoked ← reqField fields "is_revoked" decodeBool
      let expire_date ← optField fields "expire_date" decodeInt
      let member_limit ← optField fields "member_limit" decodeInt
      pure { invite_link := invite_link, creator := creator,
             is_primary := is_primary, is_revoked := is_revoked,
             expire_date := expire_date, member_limit := member_limit }
  | _ => .error (.typeMismatch [] "a ChatInviteLink object")

/-- The membership-change event (`ChatMemberUpdated` in the source): five
required fields and an optional invite link. -/
structure ChatMemberUpdated where
  chat : Chat
  «from» : User
  date : Integer
  old_chat_member : ChatMember
  new_chat_member : ChatMember
  invite_link : Option ChatInviteLink
deriving DecidableEq, Repr

/-- Every schema field name of `ChatMemberUpdated`. -/
def chatMemberUpdatedFieldNames : List String :=
  ["chat", "from", "date", "old_chat_member", "new_chat_member", "invite_link"]

/-- The derived deserializer for `ChatMemberUpdated`; the two `ChatMember`
snapshots and the optional invite link decode recursively. -/
def decodeChatMemberUpdated : Json → Except DecodeError ChatMemberUpdated
  | .obj fields => do
      let chat ← reqField fields "chat" decodeChat
      let fromUser ← reqField fields "from" decodeUser
      let date ← reqField fields "date" decodeInt
      let old_chat_member ← reqField fields "old_chat_member" decodeChatMember
      let new_chat_member ← reqField fields "new_chat_member" decodeChatMember
      let invite_link ← optField fields "invite_link" decodeChatInviteLink
      pure { chat := chat, «from» := fromUser, date := date,
             old_chat_member := old_chat_member,
             new_chat_member := new_chat_member, invite_link := invite_link }
  | _ => .error (.typeMismatch [] "a ChatMemberUpdated object")

/-! ## Shape projections and concrete scenario inputs -/

/-- The integer carried by a raw value of integer shape, if any. -/
def jInt? : Json → Option Integer
  | .int n => some n
  | _ => none

/-- The boolean carried by a raw value of boolean shape, if any. -/
def jBool? : Json → Option Bool
  | .bool b => some b
  | _ => none

/-- The §8 scenario input: a complete membership-change event whose old
snapshot carries the unrecognized status literal `owner_pending`. -/
def ownerPendingInput : Json :=
  .obj [("chat", .obj [("id", .int 99)]),
        ("from", .obj [("id", .int 1)]),
        ("date", .int 1620000000),
        ("old_chat_member",
         .obj [("user", .obj [("id", .int 2)]), ("status", .str "owner_pending")]),
        ("new_chat_member",
         .obj [("user", .obj [("id", .int 2)]), ("status", .str "member")])]

/-- The typed value `ownerPendingInput` decodes to. -/
def ownerPendingValue : ChatMemberUpdated :=
  { chat := { id := 99 }, «from» := { id := 1 }, date := 1620000000,
    old_chat_member :=
      { user := { id := 2 }, status := .Unknown "owner_pending",
        until_date := none, can_be_edited := none, can_change_info := none,
        can_post_messages := none, can_edit_messages := none,
        can_delete_messages := none, can_invite_users := none,
        can_restrict_members := none, can_pin_messages := none,
        can_promote_members := none, can_send_messages := none,
        can_send_media_messages := none, can_send_other_messages := none,
        can_add_web_page_previews := none },
    new_chat_member :=
      { user := { id := 2 }, status := .Member,
        until_date := none, can_be_edited := none, can_change_info := none,
        can_post_messages := none, can_edit_messages := none,
        can_delete_messages := none, can_invite_users := none,
        can_restrict_members := none, can_pin_messages := none,
        can_promote_members := none, can_send_messages := none,
        can_send_media_messages := none, can_send_other_messages := none,
        can_add_web_page_previews := none },
    invite_link := none }

/-- A membership-change event whose nested `old_chat_member.user.id` holds a
string where an integer is required (deep type-mismatch scenario). -/
def nestedMismatchInput : Json :=
  .obj [("chat", .obj [("id", .int 5)]),
        ("from", .obj [("id", .int 6)]),
        ("date", .int 100),
        ("old_chat_member",
         .obj [("user", .obj [("id", .str "oops")]), ("status", .str "member")]),
        ("new_chat_member",
         .obj [("user", .obj [("id", .int 2)]), ("status", .str "member")])]

end Raw

deriving instance DecidableEq for Except

namespace Raw

/-! ## Lookup lemmas -/

/-- Lookup misses a list none of whose keys is the sought name. -/
theorem lookup_eq_none_of_keys_ne (name : String) (l : List (String × Json))
    (h : ∀ p ∈ l, p.1 ≠ name) : List.lookup name l = none := by
  induction l with
  | nil => rfl
  | cons hd tl ih =>
      obtain ⟨k, v⟩ := hd
      have hk : (name == k) = false := by
        have hne := h (k, v) (List.mem_cons_self _ _)
        exact beq_eq_false_iff_ne.mpr fun he => hne he.symm
      rw [List.lookup_cons, hk]
      exact ih fun p hp => h p (List.mem_cons_of_mem _ hp)

/-- Appending entries whose keys all differ from the sought name does not
change a lookup. -/
theorem lookup_append_extra (name : String) (l extra : List (String × Json))
    (h : ∀ p ∈ extra, p.1 ≠ name) :
    List.lookup name (l ++ extra) = List.lookup name l := by
  induction l with
  | nil => simpa using lookup_eq_none_of_keys_ne name extra h
  | cons hd tl ih =>
      obtain ⟨k, v⟩ := hd
      rw [List.cons_append, List.lookup_cons, List.lookup_cons]
      cases hnk : (name == k) with
      | true => rfl
      | false => exact ih

/-! ## Field-policy lemmas -/

/-- A required field that is absent is a `MissingField` naming the field. -/
theorem reqField_none {α : Type} (fields : List (String × Json)) (name : String)
    (dec : Json → Except DecodeError α) (h : List.lookup name fields = none) :
    reqField fields name dec = .error (.missingField [name]) := by
  simp [reqField, h]

/-- A required field that is present and decodes cleanly yields its value. -/
theorem reqField_ok {α : Type} {fields : List (String × Json)} {name : String}
    {dec : Json → Except DecodeError α} {v : Json} {a : α}
    (h : List.lookup name fields = some v) (hd : dec v = .ok a) :
    reqField fields name dec = .ok a := by
  simp [reqField, h, hd, Except.mapError]

/-- A required field whose element codec fails propagates the failure tagged
with the field name. -/
theorem reqField_err {α : Type} {fields : List (String × Json)} {name : String}
    {dec : Json → Except DecodeError α} {v : Json} {e : DecodeError}
    (h : List.lookup name fields = some v) (hd : dec v = .error e) :
    reqField fields name dec = .error (e.prefixWith name) := by
  simp [reqField, h, hd, Except.mapError]

/-- An optional field that is absent decodes to `none`. -/
theorem optField_none {α : Type} (fields : List (String × Json)) (name : String)
    (dec : Json → Except DecodeError α) (h : List.lookup name fields = none) :
    optField fields name dec = .ok none := by
  simp [optField, h]

/-- An optional field that is present and decodes cleanly yields `some`. -/
theorem optField_ok {α : Type} {fields : List (String × Json)} {name : String}
    {dec : Json → Except DecodeError α} {v : Json} {a : α}
    (h : List.lookup name fields = some v) (hd : dec v = .ok a) :
    optField fields name dec = .ok (some a) := by
  simp [optField, h, hd, Except.mapError, Except.map]

/-- An optional field whose element codec fails propagates the failure tagged
with the field name. -/
theorem optField_err {α : Type} {fields : List (String × Json)} {name : String}
    {dec : Json → Except DecodeError α} {v : Json} {e : DecodeError}
    (h : List.lookup name fields = some v) (hd : dec v = .error e) :
    optField fields name dec = .error (e.prefixWith name) := by
  simp [optField, h, hd, Except.mapError, Except.map]

/-- An integer-shaped optional field decodes to the integer its raw value
carries (absent ↦ `none`, never a default). -/
theorem optField_int_bind (fields : List (String × Json)) (name : String)
    (h : List.lookup name fields = none ∨
         ∃ n, List.lookup name fields = some (.int n)) :
    optField fields name decodeInt = .ok ((List.lookup name fields).bind jInt?) := by
  rcases h with h | ⟨n, h⟩ <;>
    simp [optField, h, decodeInt, jInt?, Except.mapError, Except.map]

/-- A boolean-shaped optional field decodes to the boolean its raw value
carries (absent ↦ `none`, never a default). -/
theorem optField_bool_bind (fields : List (String × Json)) (name : String)
    (h : List.lookup name fields = none ∨
         ∃ b, List.lookup name fields = some (.bool b)) :
    optField fields name decodeBool = .ok ((List.lookup name fields).bind jBool?) := by
  rcases h with h | ⟨b, h⟩ <;>
    simp [optField, h, decodeBool, jBool?, Except.mapError, Except.map]

/-! ## Reduction lemmas for the `Except` monad -/

theorem bindE_error {ε α β : Type} (e : ε) (f : α → Except ε β) :
    (Except.error e : Except ε α) >>= f = Except.error e := rfl

theorem bindE_ok {ε α β : Type} (a : α) (f : α → Except ε β) :
    (Except.ok a : Except ε α) >>= f = f a := rfl

theorem mapE_error {ε α β : Type} (g : α → β) (e : ε) :
    g <$> (Except.error e : Except ε α) = Except.error e := rfl

theorem mapE_ok {ε α β : Type} (g : α → β) (a : α) :
    g <$> (Except.ok a : Except ε α) = Except.ok (g a) := rfl

theorem pureE {ε α : Type} (a : α) :
    (pure a : Except ε α) = Except.ok a := rfl

/-! ## Status-literal helpers -/

/-- A string equal to none of the five known literals falls to the catch-all
arm of the visitor, carrying the string unchanged. -/
theorem visitStr_of_not_known (s : String)
    (h1 : s ≠ "creator") (h2 : s ≠ "administrator") (h3 : s ≠ "member")
    (h4 : s ≠ "left") (h5 : s ≠ "kicked") :
    ChatMemberStatus.visitStr s = .Unknown s := by
  simp [ChatMemberStatus.visitStr, h1, h2, h3, h4, h5]

/-- `ChatMemberStatus.raw` is a left inverse of the visitor: every decoded
status remembers exactly the wire literal it came from. -/
theorem raw_visitStr (s : String) : (ChatMemberStatus.visitStr s).raw = s := by
  unfold ChatMemberStatus.visitStr
  split_ifs with h1 h2 h3 h4 h5 <;> simp [ChatMemberStatus.raw, *]

/-! ## The decoders consult only their schema's field names -/

/-- `decodeChatMember` depends only on the lookups of its schema fields. -/
theorem decodeChatMember_congr (f1 f2 : List (String × Json))
    (h : ∀ name ∈ chatMemberFieldNames, List.lookup name f1 = List.lookup name f2) :
    decodeChatMember (.obj f1) = decodeChatMember (.obj f2) := by
  simp only [chatMemberFieldNames, chatMemberOptionalFields, chatMemberOptionalBoolFields,
    List.forall_mem_cons, List.forall_mem_nil, and_true] at h
  obtain ⟨h1, h2, h3, h4, h5, h6, h7, h8, h9, h10, h11, h12, h13, h14, h15, h16⟩ := h
  simp only [decodeChatMember, reqField, optField, h1, h2, h3, h4, h5, h6, h7, h8,
    h9, h10, h11, h12, h13, h14, h15, h16]

/-- `decodeChatInviteLink` depends only on the lookups of its schema fields. -/
theorem decodeChatInviteLink_congr (f1 f2 : List (String × Json))
    (h : ∀ name ∈ chatInviteLinkFieldNames, List.lookup name f1 = List.lookup name f2) :
    decodeChatInviteLink (.obj f1) = decodeChatInviteLink (.obj f2) := by
  simp only [chatInviteLinkFieldNames,
    List.forall_mem_cons, List.forall_mem_nil, and_true] at h
  obtain ⟨h1, h2, h3, h4, h5, h6⟩ := h
  simp only [decodeChatInviteLink, reqField, optField, h1, h2, h3, h4, h5, h6]

/-- `decodeChatMemberUpdated` depends only on the lookups of its schema fields. -/
theorem decodeChatMemberUpdated_congr (f1 f2 : List (String × Json))
    (h : ∀ name ∈ chatMemberUpdatedFieldNames, List.lookup name f1 = List.lookup name f2) :
    decodeChatMemberUpdated (.obj f1) = decodeChatMemberUpdated (.obj f2) := by
  simp only [chatMemberUpdatedFieldNames,
    List.forall_mem_cons, List.forall_mem_nil, and_true] at h
  obtain ⟨h1, h2, h3, h4, h5, h6⟩ := h
  simp only [decodeChatMemberUpdated, reqField, optField, h1, h2, h3, h4, h5, h6]

/-! ## Claim theorems -/

/-- C1: Status decoding is total on strings — decoding any string succeeds
(never returns an error), and for every string outside the known set
{creator, administrator, member, left, kicked} it yields the catch-all
`Unknown` variant carrying exactly the original string; no unknown-enum-value
error is ever produced for a string input. -/
theorem statusDecodeTotal (s : String) :
    decodeChatMemberStatus (.str s) = .ok (ChatMemberStatus.visitStr s) ∧
    (s ∉ ["creator", "administrator", "member", "left", "kicked"] →
      decodeChatMemberStatus (.str s) = .ok (.Unknown s)) := by
  refine ⟨rfl, fun h => ?_⟩
  simp only [List.mem_cons, List.not_mem_nil, or_false, not_or] at h
  obtain ⟨h1, h2, h3, h4, h5⟩ := h
  simp [decodeChatMemberStatus, visitStr_of_not_known s h1 h2 h3 h4 h5]

/-- Witness for C1 at the concrete unknown literal `owner`. -/
theorem statusDecodeTotal_witness :
    decodeChatMemberStatus (.str "owner") = .ok (.Unknown "owner") :=
  (statusDecodeTotal "owner").2 (by decide)

/-- C2: each known status literal decodes to its corresponding named variant,
not the catch-all. -/
theorem knownStatusDecode :
    decodeChatMemberStatus (.str "creator") = .ok .Creator ∧
    decodeChatMemberStatus (.str "administrator") = .ok .Administrator ∧
    decodeChatMemberStatus (.str "member") = .ok .Member ∧
    decodeChatMemberStatus (.str "left") = .ok .Left ∧
    decodeChatMemberStatus (.str "kicked") = .ok .Kicked :=
  ⟨rfl, rfl, rfl, rfl, rfl⟩

/-- C7: a complete `ChatMemberUpdated` record whose nested
`old_chat_member.status` holds the unrecognized literal `owner_pending`
decodes successfully, and the resulting nested status is the catch-all
variant wrapping `owner_pending`. -/
theorem nestedUnknownStatusDecodes :
    decodeChatMemberUpdated ownerPendingInput = .ok ownerPendingValue ∧
    ownerPendingValue.old_chat_member.status = .Unknown "owner_pending" :=
  ⟨rfl, rfl⟩

/-- C8: status-literal matching is exact — case-sensitive and without
trimming — so any string other than the five known literals (in particular
strings differing only in case or surrounding whitespace) decodes to the
catch-all variant carrying that string unchanged. -/
theorem statusMatchExact :
    (∀ s : String, s ≠ "creator" → s ≠ "administrator" → s ≠ "member" →
        s ≠ "left" → s ≠ "kicked" →
        ChatMemberStatus.visitStr s = .Unknown s) ∧
    ChatMemberStatus.visitStr "Creator" = .Unknown "Creator" ∧
    ChatMemberStatus.visitStr "MEMBER" = .Unknown "MEMBER" ∧
    ChatMemberStatus.visitStr " member " = .Unknown " member " :=
  ⟨visitStr_of_not_known, rfl, rfl, rfl⟩

/-- Witness for C8 at the concrete case-differing literal `Owner`. -/
theorem statusMatchExact_witness :
    ChatMemberStatus.visitStr "Owner" = .Unknown "Owner" :=
  statusMatchExact.1 "Owner" (by decide) (by decide) (by decide) (by decide)
    (by decide)

/-- C9: equality on `ChatMemberStatus` is structural (same variant tag and,
for the catch-all, the same carried string), ordering compares the variant
tag in declaration order first and then the carried string, and hashing is
consistent with equality. -/
theorem statusStructuralOrder (a b : ChatMemberStatus) :
    (a = b ↔ a.tag = b.tag ∧ a.payload = b.payload) ∧
    ChatMemberStatus.cmp a b =
      (compare a.tag b.tag).then (compare a.payload b.payload) ∧
    (a = b → a.hashVal = b.hashVal) := by
  refine ⟨?_, ?_, fun h => h ▸ rfl⟩
  · cases a <;> cases b <;> simp [ChatMemberStatus.tag, ChatMemberStatus.payload]
  · cases a <;> cases b <;> rfl

/-- Witness for C9 at concrete status values. -/
theorem statusStructuralOrder_witness :
    ChatMemberStatus.cmp (.Unknown "a") .Creator =
      (compare (ChatMemberStatus.tag (.Unknown "a"))
          (ChatMemberStatus.tag .Creator)).then
        (compare (ChatMemberStatus.payload (.Unknown "a"))
          (ChatMemberStatus.payload .Creator)) ∧
    ChatMemberStatus.hashVal (.Unknown "a") =
      ChatMemberStatus.hashVal (.Unknown "a") :=
  ⟨(statusStructuralOrder _ _).2.1, (statusStructuralOrder _ _).2.2 rfl⟩

/-- C10: status decoding is injective on strings — distinct wire literals are
never conflated into the same `ChatMemberStatus` value. -/
theorem statusDecodeInjective (s1 s2 : String) (h : s1 ≠ s2) :
    ChatMemberStatus.visitStr s1 ≠ ChatMemberStatus.visitStr s2 := by
  intro hc
  have hr := congrArg ChatMemberStatus.raw hc
  rw [raw_visitStr, raw_visitStr] at hr
  exact h hr

/-- Witness for C10 at two concrete distinct literals. -/
theorem statusDecodeInjective_witness :
    ChatMemberStatus.visitStr "creator" ≠ ChatMemberStatus.visitStr "member" :=
  statusDecodeInjective "creator" "member" (by decide)

/-- C3: a record missing a required field fails with `MissingField` naming
exactly that field — shown for both required fields of `ChatMember` and,
analogously, for every required field of `ChatInviteLink` and
`ChatMemberUpdated` (earlier-declared required fields assumed present and
well-formed, since decoding is fail-fast in declaration order). -/
theorem missingRequiredField :
    (∀ fields : List (String × Json), List.lookup "user" fields = none →
        decodeChatMember (.obj fields) = .error (.missingField ["user"])) ∧
    (∀ (fields : List (String × Json)) (uj : Json) (u : User),
        List.lookup "user" fields = some uj → decodeUser uj = .ok u →
        List.lookup "status" fields = none →
        decodeChatMember (.obj fields) = .error (.missingField ["status"])) ∧
    (∀ fields : List (String × Json),
        List.lookup "invite_link" fields = none →
        decodeChatInviteLink (.obj fields) = .error (.missingField ["invite_link"])) ∧
    (∀ (fields : List (String × Json)) (s : String),
        List.lookup "invite_link" fields = some (.str s) →
        List.lookup "creator" fields = none →
        decodeChatInviteLink (.obj fields) = .error (.missingField ["creator"])) ∧
    (∀ (fields : List (String × Json)) (s : String) (cj : Json) (c : User),
        List.lookup "invite_link" fields = some (.str s) →
        List.lookup "creator" fields = some cj → decodeUser cj = .ok c →
        List.lookup "is_primary" fields = none →
        decodeChatInviteLink (.obj fields) = .error (.missingField ["is_primary"])) ∧
    (∀ (fields : List (String × Json)) (s : String) (cj : Json) (c : User) (b : Bool),
        List.lookup "invite_link" fields = some (.str s) →
        List.lookup "creator" fields = some cj → decodeUser cj = .ok c →
        List.lookup "is_primary" fields = some (.bool b) →
        List.lookup "is_revoked" fields = none →
        decodeChatInviteLink (.obj fields) = .error (.missingField ["is_revoked"])) ∧
    (∀ fields : List (String × Json),
        List.lookup "chat" fields = none →
        decodeChatMemberUpdated (.obj fields) = .error (.missingField ["chat"])) ∧
    (∀ (fields : List (String × Json)) (cj : Json) (c : Chat),
        List.lookup "chat" fields = some cj → decodeChat cj = .ok c →
        List.lookup "from" fields = none →
        decodeChatMemberUpdated (.obj fields) = .error (.missingField ["from"])) ∧
    (∀ (fields : List (String × Json)) (cj : Json) (c : Chat) (fj : Json) (f : User),
        List.lookup "chat" fields = some cj → decodeChat cj = .ok c →
        List.lookup "from" fields = some fj → decodeUser fj = .ok f →
        List.lookup "date" fields = none →
        decodeChatMemberUpdated (.obj fields) = .error (.missingField ["date"])) ∧
    (∀ (fields : List (String × Json)) (cj : Json) (c : Chat) (fj : Json)
        (f : User) (d : Integer),
        List.lookup "chat" fields = some cj → decodeChat cj = .ok c →
        List.lookup "from" fields = some fj → decodeUser fj = .ok f →
        List.lookup "date" fields = some (.int d) →
        List.lookup "old_chat_member" fields = none →
        decodeChatMemberUpdated (.obj fields) =
          .error (.missingField ["old_chat_member"])) ∧
    (∀ (fields : List (String × Json)) (cj : Json) (c : Chat) (fj : Json)
        (f : User) (d : Integer) (oj : Json) (o : ChatMember),
        List.lookup "chat" fields = some cj → decodeChat cj = .ok c →
        List.lookup "from" fields = some fj → decodeUser fj = .ok f →
        List.lookup "date" fields = some (.int d) →
        List.lookup "old_chat_member" fields = some oj →
        decodeChatMember oj = .ok o →
        List.lookup "new_chat_member" fields = none →
        decodeChatMemberUpdated (.obj fields) =
          .error (.missingField ["new_chat_member"])) := by
  refine ⟨?_, ?_, ?_, ?_, ?_, ?_, ?_, ?_, ?_, ?_, ?_⟩
  · intro fields h
    simp only [decodeChatMember, reqField_none fields "user" decodeUser h,
      bindE_error]
  · intro fields uj u hu hdu h
    simp only [decodeChatMember, reqField_ok hu hdu,
      reqField_none fields "status" decodeChatMemberStatus h, bindE_ok, bindE_error]
  · intro fields h
    simp only [decodeChatInviteLink,
      reqField_none fields "invite_link" decodeString h, bindE_error]
  · intro fields s hl h
    simp only [decodeChatInviteLink,
      reqField_ok hl (show decodeString (.str s) = .ok s from rfl),
      reqField_none fields "creator" decodeUser h, bindE_ok, bindE_error]
  · intro fields s cj c hl hc hdc h
    simp only [decodeChatInviteLink,
      reqField_ok hl (show decodeString (.str s) = .ok s from rfl),
      reqField_ok hc hdc,
      reqField_none fields "is_primary" decodeBool h, bindE_ok, bindE_error]
  · intro fields s cj c b hl hc hdc hp h
    simp only [decodeChatInviteLink,
      reqField_ok hl (show decodeString (.str s) = .ok s from rfl),
      reqField_ok hc hdc,
      reqField_ok hp (show decodeBool (.bool b) = .ok b from rfl),
      reqField_none fields "is_revoked" decodeBool h, bindE_ok, bindE_error]
  · intro fields h
    simp only [decodeChatMemberUpdated, reqField_none fields "chat" decodeChat h,
      bindE_error]
  · intro fields cj c hc hdc h
    simp only [decodeChatMemberUpdated, reqField_ok hc hdc,
      reqField_none fields "from" decodeUser h, bindE_ok, bindE_error]
  · intro fields cj c fj f hc hdc hf hdf h
    simp only [decodeChatMemberUpdated, reqField_ok hc hdc, reqField_ok hf hdf,
      reqField_none fields "date" decodeInt h, bindE_ok, bindE_error]
  · intro fields cj c fj f d hc hdc hf hdf hd h
    simp only [decodeChatMemberUpdated, reqField_ok hc hdc, reqField_ok hf hdf,
      reqField_ok hd (show decodeInt (.int d) = .ok d from rfl),
      reqField_none fields "old_chat_member" decodeChatMember h, bindE_ok,
      bindE_error]
  · intro fields cj c fj f d oj o hc hdc hf hdf hd ho hdo h
    simp only [decodeChatMemberUpdated, reqField_ok hc hdc, reqField_ok hf hdf,
      reqField_ok hd (show decodeInt (.int d) = .ok d from rfl),
      reqField_ok ho hdo,
      reqField_none fields "new_chat_member" decodeChatMember h, bindE_ok,
      bindE_error]

/-- Witness for C3: the empty record misses `user`. -/
theorem missingRequiredField_witness :
    decodeChatMember (.obj []) = .error (.missingField ["user"]) :=
  missingRequiredField.1 [] rfl

/-- C5: extra keys that are not in an entity's schema are ignored — decoding
with them appended yields exactly the same result as decoding without them,
for all three entities. -/
theorem extraKeysIgnored :
    (∀ fields extra : List (String × Json),
        (∀ p ∈ extra, p.1 ∉ chatMemberFieldNames) →
        decodeChatMember (.obj (fields ++ extra)) =
          decodeChatMember (.obj fields)) ∧
    (∀ fields extra : List (String × Json),
        (∀ p ∈ extra, p.1 ∉ chatInviteLinkFieldNames) →
        decodeChatInviteLink (.obj (fields ++ extra)) =
          decodeChatInviteLink (.obj fields)) ∧
    (∀ fields extra : List (String × Json),
        (∀ p ∈ extra, p.1 ∉ chatMemberUpdatedFieldNames) →
        decodeChatMemberUpdated (.obj (fields ++ extra)) =
          decodeChatMemberUpdated (.obj fields)) := by
  refine ⟨?_, ?_, ?_⟩
  · intro fields extra h
    apply decodeChatMember_congr
    intro name hn
    apply lookup_append_extra
    intro p hp he
    subst he
    exact h p hp hn
  · intro fields extra h
    apply decodeChatInviteLink_congr
    intro name hn
    apply lookup_append_extra
    intro p hp he
    subst he
    exact h p hp hn
  · intro fields extra h
    apply decodeChatMemberUpdated_congr
    intro name hn
    apply lookup_append_extra
    intro p hp he
    subst he
    exact h p hp hn

/-- Witness for C5: one unknown extra key on a minimal `ChatMember` record. -/
theorem extraKeysIgnored_witness :
    decodeChatMember (.obj ([("user", .obj [("id", .int 3)]),
        ("status", .str "left")] ++ [("brand_new_key", .int 1)])) =
      decodeChatMember (.obj [("user", .obj [("id", .int 3)]),
        ("status", .str "left")]) :=
  extraKeysIgnored.1 _ _ (by intro p hp; fin_cases hp; decide)

/-- C6: a present field whose raw value has the wrong shape for its element
codec fails with `TypeMismatch` naming the field and the expected shape; a
failure inside a nested record is prefixed with each containing field's
name, so the final error carries the full dotted path from the record root. -/
theorem typeMismatchPath :
    (∀ (fields : List (String × Json)) (uj : Json) (u : User) (st sv : String),
        List.lookup "user" fields = some uj → decodeUser uj = .ok u →
        List.lookup "status" fields = some (.str st) →
        List.lookup "until_date" fields = some (.str sv) →
        decodeChatMember (.obj fields) =
          .error (.typeMismatch ["until_date"] "an integer")) ∧
    decodeChatMemberUpdated nestedMismatchInput =
      .error (.typeMismatch ["old_chat_member", "user", "id"] "an integer") ∧
    (DecodeError.typeMismatch ["old_chat_member", "user", "id"]
        "an integer").pathString = "old_chat_member.user.id" := by
  refine ⟨?_, rfl, rfl⟩
  intro fields uj u st sv hu hdu hs hud
  simp only [decodeChatMember, reqField_ok hu hdu,
    reqField_ok hs
      (show decodeChatMemberStatus (.str st) = .ok (.visitStr st) from rfl),
    optField_err hud
      (show decodeInt (.str sv) = .error (.typeMismatch [] "an integer") from rfl),
    bindE_ok, bindE_error, DecodeError.prefixWith]

/-- Witness for C6: a concrete `ChatMember` record whose `until_date` holds a
string. -/
theorem typeMismatchPath_witness :
    decodeChatMember (.obj [("user", .obj [("id", .int 1)]),
        ("status", .str "member"), ("until_date", .str "tomorrow")]) =
      .error (.typeMismatch ["until_date"] "an integer") :=
  typeMismatchPath.1
    [("user", .obj [("id", .int 1)]), ("status", .str "member"),
     ("until_date", .str "tomorrow")]
    (.obj [("id", .int 1)]) { id := 1 } "member" "tomorrow" rfl rfl rfl rfl

/-- C4 counterexample: the claim speaks of fifteen optional fields on
`ChatMember`, but the schema declares exactly fourteen (one timestamp and
thirteen booleans), so the claim as stated is false of the code. -/
theorem chatMemberNotFifteenOptionals :
    (chatMemberOptionalFields.length = 15) = False :=
  eq_false (by decide)

/-- C4 (amended to the fourteen optional fields the schema declares): a
`ChatMember` record with its required fields present and any subset of the
fourteen optional fields omitted decodes successfully; every omitted optional
field reads as `none` (never a default) and every present one as `some` of
its value — so absence is distinct from an explicit `false`; likewise a
`ChatInviteLink` with `member_limit` omitted decodes with `member_limit`
absent, not zero. -/
theorem optionalFieldsAbsent :
    (∀ (fields : List (String × Json)) (uj : Json) (u : User) (st : String),
        List.lookup "user" fields = some uj → decodeUser uj = .ok u →
        List.lookup "status" fields = some (.str st) →
        (List.lookup "until_date" fields = none ∨
          ∃ n, List.lookup "until_date" fields = some (.int n)) →
        (∀ name ∈ chatMemberOptionalBoolFields,
          List.lookup name fields = none ∨
            ∃ b, List.lookup name fields = some (.bool b)) →
        decodeChatMember (.obj fields) = .ok
          { user := u, status := ChatMemberStatus.visitStr st,
            until_date := (List.lookup "until_date" fields).bind jInt?,
            can_be_edited := (List.lookup "can_be_edited" fields).bind jBool?,
            can_change_info := (List.lookup "can_change_info" fields).bind jBool?,
            can_post_messages :=
              (List.lookup "can_post_messages" fields).bind jBool?,
            can_edit_messages :=
              (List.lookup "can_edit_messages" fields).bind jBool?,
            can_delete_messages :=
              (List.lookup "can_delete_messages" fields).bind jBool?,
            can_invite_users := (List.lookup "can_invite_users" fields).bind jBool?,
            can_restrict_members :=
              (List.lookup "can_restrict_members" fields).bind jBool?,
            can_pin_messages := (List.lookup "can_pin_messages" fields).bind jBool?,
            can_promote_members :=
              (List.lookup "can_promote_members" fields).bind jBool?,
            can_send_messages :=
              (List.lookup "can_send_messages" fields).bind jBool?,
            can_send_media_messages :=
              (List.lookup "can_send_media_messages" fields).bind jBool?,
            can_send_other_messages :=
              (List.lookup "can_send_other_messages" fields).bind jBool?,
            can_add_web_page_previews :=
              (List.lookup "can_add_web_page_previews" fields).bind jBool? }) ∧
    decodeChatMember (.obj [("user", .obj [("id", .int 1)]),
        ("status", .str "administrator"), ("can_be_edited", .bool false)]) ≠
      decodeChatMember (.obj [("user", .obj [("id", .int 1)]),
        ("status", .str "administrator")]) ∧
    decodeChatInviteLink (.obj [("invite_link", .str "https://t.me/x"),
        ("creator", .obj [("id", .int 1)]), ("is_primary", .bool true),
        ("is_revoked", .bool false)]) = .ok
      { invite_link := "https://t.me/x", creator := { id := 1 },
        is_primary := true, is_revoked := false, expire_date := none,
        member_limit := none } := by
  refine ⟨?_, by decide, rfl⟩
  intro fields uj u st hu hdu hs hud hb
  simp only [chatMemberOptionalBoolFields, List.forall_mem_cons,
    List.forall_mem_nil, and_true] at hb
  obtain ⟨b1, b2, b3, b4, b5, b6, b7, b8, b9, b10, b11, b12, b13, -⟩ := hb
  simp only [decodeChatMember, reqField_ok hu hdu,
    reqField_ok hs
      (show decodeChatMemberStatus (.str st) = .ok (.visitStr st) from rfl),
    optField_int_bind fields "until_date" hud,
    optField_bool_bind fields "can_be_edited" b1,
    optField_bool_bind fields "can_change_info" b2,
    optField_bool_bind fields "can_post_messages" b3,
    optField_bool_bind fields "can_edit_messages" b4,
    optField_bool_bind fields "can_delete_messages" b5,
    optField_bool_bind fields "can_invite_users" b6,
    optField_bool_bind fields "can_restrict_members" b7,
    optField_bool_bind fields "can_pin_messages" b8,
    optField_bool_bind fields "can_promote_members" b9,
    optField_bool_bind fields "can_send_messages" b10,
    optField_bool_bind fields "can_send_media_messages" b11,
    optField_bool_bind fields "can_send_other_messages" b12,
    optField_bool_bind fields "can_add_web_page_previews" b13,
    bindE_ok, mapE_ok, pureE]

/-- Witness for C4 (amended) at a concrete record omitting every optional
field. -/
theorem optionalFieldsAbsent_witness :
    decodeChatMember (.obj [("user", .obj [("id", .int 7)]),
        ("status", .str "member")]) =
      .ok { user := { id := 7 }, status := .Member, until_date := none,
            can_be_edited := none, can_change_info := none,
            can_post_messages := none, can_edit_messages := none,
            can_delete_messages := none, can_invite_users := none,
            can_restrict_members := none, can_pin_messages := none,
            can_promote_members := none, can_send_messages := none,
            can_send_media_messages := none, can_send_other_messages := none,
            can_add_web_page_previews := none } :=
  (optionalFieldsAbsent.1
    [("user", .obj [("id", .int 7)]), ("status", .str "member")]
    (.obj [("id", .int 7)]) { id := 7 } "member" rfl rfl rfl (Or.inl rfl)
    (by intro name hn; fin_cases hn <;> exact Or.inl rfl)).trans rfl

end Raw
